import Mathlib

/-!
# random-gopher: a shallow embedding of `gopherrize-random.go`

Go strings are Lean `String`s (one character per byte for the ASCII data the
service handles).  A Go function returning `(string, error)` returns a pair
`String × Option String`, the second component being the error message
(`none` is Go's `nil`).  A run-time panic is a separate outcome.  Everything
that leaves the process (the two GETs to gopherize.me, the POST to the
callback, the random source) and the library functions whose code is not part
of the repository (JSON decoding, the HTML tokenizer, `url.Parse`) are read
from an explicit environment `Env`; every outbound request is recorded in a
trace of `Call`s.  Logging is not modelled.
-/

namespace RandomGopher

/-! ## Data model -/

/-- One selectable image of a category (the anonymous struct inside `Artwork`). -/
structure Image where
  ID : String
  Name : String
  Href : String
  ThumbnailHref : String
  deriving DecidableEq

/-- One category of the catalog. -/
structure Category where
  ID : String
  Name : String
  Images : List Image
  deriving DecidableEq

/-- The catalog `Artwork`. -/
structure Artwork where
  Categories : List Category
  TotalCombinations : Int
  deriving DecidableEq

/-- The struct `Attachment`. -/
structure Attachment where
  Fallback : String
  ImageURL : String
  Title : String
  TitleLink : String
  deriving DecidableEq

/-- The struct `SlackResponse`. -/
structure SlackResponse where
  ResponseType : String
  Attachments : List Attachment
  Text : String
  deriving DecidableEq

/-- JSON values, as far as the program produces them. -/
inductive Json where
  | str (s : String)
  | arr (items : List Json)
  | obj (fields : List (String × Json))

/-- Token kinds of `golang.org/x/net/html`. -/
inductive TokenType where
  | ErrorToken
  | TextToken
  | StartTagToken
  | EndTagToken
  | SelfClosingTagToken
  | CommentToken
  | DoctypeToken
  deriving DecidableEq

/-- An attribute `html.Attribute` of a tag token. -/
structure Attribute where
  Key : String
  Val : String
  deriving DecidableEq

/-- A token `html.Token`; `Typ` is its field `Type`. -/
structure Token where
  Typ : TokenType
  Data : String
  Attr : List Attribute
  deriving DecidableEq

/-- What `http.Get` or `http.Post` hands back when the transport succeeds: the
status code, the bytes of the body, and the error a reader of the body meets
after those bytes (`none` for a clean end of file). -/
structure Response where
  StatusCode : Nat
  Body : String
  ReadErr : Option String
  deriving DecidableEq

/-- The scheme and host of a parsed `url.URL`. -/
structure URL where
  Scheme : String
  Host : String
  deriving DecidableEq

/-- An outbound request made by the program. -/
inductive Call where
  | Get (url : String)
  | Post (url : String) (contentType : String) (body : Json)

/-- The world outside the source file. -/
structure Env where
  /-- Outcome of `http.Get url`: a transport error or a response. -/
  Get : String → Except String Response
  /-- Outcome of `http.Post url contentType body`. -/
  Post : String → String → Json → Except String Response
  /-- The function `json.Unmarshal(body, &artwork)`: the catalog it fills in and its error. -/
  Unmarshal : String → Artwork × Option String
  /-- The tokens the HTML tokenizer yields for a body before its final `ErrorToken`. -/
  Tokenize : String → List Token
  /-- The raw value the freshly seeded random source yields in the k-th loop iteration. -/
  rand : Nat → Nat
  /-- The function `url.Parse`, `none` when it reports an error. -/
  Parse : String → Option URL

/-- Either a normal return or a run-time panic. -/
inductive Outcome (α : Type) where
  | ret (a : α)
  | panic (msg : String)
  deriving DecidableEq

/-- A value together with the outbound requests made while computing it. -/
structure Traced (α : Type) where
  val : α
  calls : List Call

/-! ## Library functions with a closed definition -/

/-- The function `strings.TrimSuffix`. -/
def TrimSuffix (s suffix : String) : String :=
  if suffix.data <:+ s.data then ⟨s.data.take (s.data.length - suffix.data.length)⟩ else s

/-- The function `strings.Join`. -/
def Join (elems : List String) (sep : String) : String :=
  ⟨sep.data.intercalate (elems.map String.data)⟩

/-- The function `strings.HasSuffix`. -/
def HasSuffix (s suffix : String) : Prop :=
  suffix.data <:+ s.data

instance (s suffix : String) : Decidable (HasSuffix s suffix) :=
  inferInstanceAs (Decidable (suffix.data <:+ s.data))

/-- The function `strings.Split(s, sep)` for a one-byte separator. -/
def Split (s : String) (sep : Char) : List String :=
  (s.data.splitOn sep).map String.mk

/-- The function `rand.Intn n` on the raw value `raw`: it panics unless `0 < n`,
and otherwise yields a number below `n`. -/
def Intn (raw n : Nat) : Outcome Nat :=
  if n = 0 then Outcome.panic "invalid argument to Intn" else Outcome.ret (raw % n)

/-! ## The catalog client and the selector -/

/-- The zero value of `Artwork`. -/
def Artwork.zero : Artwork := ⟨[], 0⟩

/-- The function `GetArtwork`. -/
def GetArtwork (env : Env) : Traced (Artwork × Option String) :=
  let calls := [Call.Get "https://gopherize.me/api/artwork"]
  match env.Get "https://gopherize.me/api/artwork" with
  | Except.error err => ⟨(Artwork.zero, some err), calls⟩
  | Except.ok resp =>
    match resp.ReadErr with
    | some err => ⟨(Artwork.zero, some err), calls⟩
    | none =>
      match env.Unmarshal resp.Body with
      | (artwork, some err) => ⟨(artwork, some err), calls⟩
      | (artwork, none) => ⟨(artwork, none), calls⟩

/-- The loop of `GenerateGopherURL` over the categories still to visit: `k`
counts the iterations done and `url` is the key built so far. -/
def urlLoop (rand : Nat → Nat) : List Category → Nat → String → Outcome String
  | [], _, url => Outcome.ret url
  | category :: rest, k, url =>
    match Intn (rand k) category.Images.length with
    | Outcome.panic msg => Outcome.panic msg
    | Outcome.ret r =>
      match category.Images[r]? with
      | none => Outcome.panic "index out of range"
      | some image => urlLoop rand rest (k + 1) (url ++ (image.ID ++ "|"))

/-- The function `GenerateGopherURL`. -/
def GenerateGopherURL (env : Env) : Traced (Outcome (String × Option String)) :=
  let artwork := GetArtwork env
  match artwork.val with
  | (_, some err) => ⟨Outcome.ret ("", some err), artwork.calls⟩
  | (catalog, none) =>
    match urlLoop env.rand catalog.Categories 0 "" with
    | Outcome.panic msg => ⟨Outcome.panic msg, artwork.calls⟩
    | Outcome.ret url => ⟨Outcome.ret (TrimSuffix url "|", none), artwork.calls⟩

/-! ## The image resolver -/

/-- The inner loop of `GenerateGopherImage` over the attributes of an `img`
start tag: the value of the first attribute whose key is `src`. -/
def srcAttr : List Attribute → Option String
  | [] => none
  | a :: rest => if a.Key = "src" then some a.Val else srcAttr rest

/-- The crawl loop of `GenerateGopherImage` over the tokens still to come.
When the list is used up the tokenizer yields `ErrorToken`; `imageURL` is
never assigned, so the loop then returns the empty string and no error. -/
def crawl : List Token → String × Option String
  | [] => ("", none)
  | t :: rest =>
    match t.Typ with
    | TokenType.ErrorToken => ("", none)
    | TokenType.StartTagToken =>
      if t.Data = "img" then
        match srcAttr t.Attr with
        | some val => (val, none)
        | none => crawl rest
      else crawl rest
    | _ => crawl rest

/-- The function `GenerateGopherImage`. -/
def GenerateGopherImage (env : Env) (url : String) : Traced (String × Option String) :=
  let getImageURL := "https://gopherize.me/save?images=" ++ url
  match env.Get getImageURL with
  | Except.error err => ⟨("", some err), [Call.Get getImageURL]⟩
  | Except.ok resp => ⟨crawl (env.Tokenize resp.Body), [Call.Get getImageURL]⟩

/-- The function `GenerateRandomGopher`. -/
def GenerateRandomGopher (env : Env) : Traced (Outcome (String × Option String)) :=
  let key := GenerateGopherURL env
  match key.val with
  | Outcome.panic msg => ⟨Outcome.panic msg, key.calls⟩
  | Outcome.ret (url, some err) => ⟨Outcome.ret (url, some err), key.calls⟩
  | Outcome.ret (url, none) =>
    let img := GenerateGopherImage env url
    ⟨Outcome.ret img.val, key.calls ++ img.calls⟩

/-! ## The callback notifier -/

/-- The package variable `format`. -/
def format : String := "json"

/-- The package variable `responseType`. -/
def responseType : String := "in_channel"

/-- JSON object of an `Attachment`, after its struct tags. -/
def Attachment.toJson (a : Attachment) : Json :=
  Json.obj [("fallback", Json.str a.Fallback), ("image_url", Json.str a.ImageURL),
    ("title", Json.str a.Title), ("title_link", Json.str a.TitleLink)]

/-- The function `json.Marshal` on a `SlackResponse`, after its struct tags:
`attachments` and `text` carry `omitempty`.  It has no error case for this type. -/
def Marshal (r : SlackResponse) : Json :=
  Json.obj ([("response_type", Json.str r.ResponseType)]
    ++ (if r.Attachments.isEmpty then [] else
          [("attachments", Json.arr (r.Attachments.map Attachment.toJson))])
    ++ (if r.Text = "" then [] else [("text", Json.str r.Text)]))

/-- The constant `http.StatusOK`. -/
def StatusOK : Nat := 200

/-- The constant `http.StatusSeeOther`. -/
def StatusSeeOther : Nat := 303

/-- The constant `http.StatusInternalServerError`. -/
def StatusInternalServerError : Nat := 500

/-- The constant `http.StatusNotImplemented`. -/
def StatusNotImplemented : Nat := 501

/-- The function `sendDelayedResponse`; its value is the returned error. -/
def sendDelayedResponse (env : Env) (responseURL imageURL : String) : Traced (Option String) :=
  let response : SlackResponse := ⟨responseType, [], ""⟩
  let response : SlackResponse :=
    ⟨response.ResponseType,
      response.Attachments ++ [⟨"Gopher !!", imageURL, "gopher", imageURL⟩],
      response.Text⟩
  let responseBody := Marshal response
  let calls := [Call.Post responseURL "application/json" responseBody]
  match env.Post responseURL "application/json" responseBody with
  | Except.error err => ⟨some err, calls⟩
  | Except.ok resp =>
    if resp.StatusCode ≠ StatusOK then
      ⟨some "response to slack with the image return a non 200", calls⟩
    else ⟨none, calls⟩

/-- The literal text the pattern starts with. -/
def responseURLKey : String := "response_url="

/-- A match of `(response_url=)(.*)&` that starts exactly at the head of `s`:
the text of the second group.  `.` matches every character but the newline and
`*` is greedy, so the group runs to the last `&` of the line. -/
def matchHere (s : List Char) : Option (List Char) :=
  if responseURLKey.data <+: s then
    let line := (s.drop responseURLKey.data.length).takeWhile (fun c => c != Char.ofNat 10)
    if '&' ∈ line then
      some ((line.reverse.dropWhile (fun c => c != '&')).drop 1).reverse
    else none
  else none

/-- The leftmost match of the pattern in `s`. -/
def findMatch : List Char → Option (List Char)
  | [] => none
  | c :: rest =>
    match matchHere (c :: rest) with
    | some g => some g
    | none => findMatch rest

/-- The call `re.FindStringSubmatch(body)` for `re = (response_url=)(.*)&`:
the empty slice when nothing matches, else the match and its two groups. -/
def FindStringSubmatch (body : String) : List String :=
  match findMatch body.data with
  | none => []
  | some g => [⟨responseURLKey.data ++ g ++ ['&']⟩, responseURLKey, ⟨g⟩]

/-- The predicate `ishex` of `net/url`. -/
def ishex (c : Char) : Bool :=
  ('0' ≤ c ∧ c ≤ '9') ∨ ('a' ≤ c ∧ c ≤ 'f') ∨ ('A' ≤ c ∧ c ≤ 'F')

/-- The function `unhex` of `net/url`. -/
def unhex (c : Char) : Nat :=
  if '0' ≤ c ∧ c ≤ '9' then c.toNat - '0'.toNat
  else if 'a' ≤ c ∧ c ≤ 'f' then c.toNat - 'a'.toNat + 10
  else if 'A' ≤ c ∧ c ≤ 'F' then c.toNat - 'A'.toNat + 10
  else 0

/-- Decoding of a query component: `%XX` is a byte, `+` a space; the result is
`none` at a `%` that is not followed by two hex digits. -/
def unescape : List Char → Option (List Char)
  | [] => some []
  | '%' :: a :: b :: rest =>
    if ishex a && ishex b then
      (unescape rest).map (fun t => Char.ofNat (unhex a * 16 + unhex b) :: t)
    else none
  | '%' :: _ => none
  | '+' :: rest => (unescape rest).map (fun t => ' ' :: t)
  | c :: rest => (unescape rest).map (fun t => c :: t)

/-- The function `url.QueryUnescape`. -/
def QueryUnescape (s : String) : String × Option String :=
  match unescape s.data with
  | some t => (⟨t⟩, none)
  | none => ("", some "invalid URL escape")

/-- The function `asyncResponse`. -/
def asyncResponse (env : Env) (body : String) : Traced (Outcome Unit) :=
  let submatch := FindStringSubmatch body
  if submatch.length ≥ 2 then
    match submatch[2]? with
    | none => ⟨Outcome.panic "index out of range", []⟩
    | some slackResponseURL =>
      match QueryUnescape slackResponseURL with
      | (_, some _) => ⟨Outcome.ret (), []⟩
      | (decodedURL, none) =>
        let img := GenerateRandomGopher env
        match img.val with
        | Outcome.panic msg => ⟨Outcome.panic msg, img.calls⟩
        | Outcome.ret (_, some _) => ⟨Outcome.ret (), img.calls⟩
        | Outcome.ret (img1, none) =>
          let sent := sendDelayedResponse env decodedURL img1
          ⟨Outcome.ret (), img.calls ++ sent.calls⟩
  else ⟨Outcome.ret (), []⟩

/-! ## The request handler -/

/-- A piece written to the response body: raw text, or the line that a
`json.Encoder` writes for a value. -/
inductive Chunk where
  | text (s : String)
  | json (j : Json)

/-- The headers of a response, in the order they were set. -/
abbrev Header := List (String × String)

/-- The method `Set` of `http.Header`. -/
def Header.Set (h : Header) (key value : String) : Header :=
  h.filter (fun kv => !decide (kv.1 = key)) ++ [(key, value)]

/-- The method `Get` of `http.Header` and of `url.Values`: the first value
stored under the key, the empty string when there is none. -/
def Header.Get (h : Header) (key : String) : String :=
  match h.find? (fun kv => decide (kv.1 = key)) with
  | some kv => kv.2
  | none => ""

/-- The state of an `http.ResponseWriter`: whether the status line went out,
the status code, the headers and the body written so far. -/
structure ResponseWriter where
  wroteHeader : Bool
  Code : Nat
  Header : Header
  Body : List Chunk

/-- A response writer nothing was written to; an untouched response has status 200. -/
def ResponseWriter.fresh : ResponseWriter := ⟨false, StatusOK, [], []⟩

/-- The method `WriteHeader`: only the first call sets the status code. -/
def ResponseWriter.WriteHeader (w : ResponseWriter) (code : Nat) : ResponseWriter :=
  if w.wroteHeader then w else ⟨true, code, w.Header, w.Body⟩

/-- The method `Write`: it sends status 200 first when no status went out yet. -/
def ResponseWriter.Write (w : ResponseWriter) (c : Chunk) : ResponseWriter :=
  let w1 := w.WriteHeader StatusOK
  ⟨w1.wroteHeader, w1.Code, w1.Header, w1.Body ++ [c]⟩

/-- An inbound request: method, `URL.Path`, the parsed query `URL.Query()`,
and what `ioutil.ReadAll(r.Body)` returns (the bytes and the error). -/
structure Request where
  Method : String
  Path : String
  Query : Header
  Body : String
  BodyErr : Option String

/-- The function `path.Split`, first component: the path up to and with its last slash. -/
def pathDir (p : String) : String :=
  ⟨(p.data.reverse.dropWhile (fun c => c != '/')).reverse⟩

/-- The element loop of `path.Clean`: `out` holds the kept elements, last one first. -/
def cleanElems (rooted : Bool) : List (List Char) → List (List Char) → List (List Char)
  | [], out => out.reverse
  | e :: rest, out =>
    if e = [] ∨ e = ['.'] then cleanElems rooted rest out
    else if e = ['.', '.'] then
      match out with
      | [] => if rooted then cleanElems rooted rest [] else cleanElems rooted rest [e]
      | top :: below =>
        if top = ['.', '.'] then cleanElems rooted rest (e :: out)
        else cleanElems rooted rest below
    else cleanElems rooted rest (e :: out)

/-- The function `path.Clean`, element by element: empty and `.` elements are
dropped, `..` removes the element before it (at the root it is dropped, in a
relative path a leading `..` stays), and the empty result is `.`. -/
def Clean (p : String) : String :=
  if p = "" then "."
  else
    let rooted := decide (p.data.head? = some '/')
    let elems := cleanElems rooted (p.data.splitOn '/') []
    let body := ['/'].intercalate elems
    let out := if rooted then '/' :: body else body
    if out = [] then "." else ⟨out⟩

/-- The function `hexEscapeNonASCII` of `net/http`: every byte from 0x80 on
becomes `%` and its value in hexadecimal. -/
def hexEscapeNonASCII (s : String) : String :=
  ⟨s.data.flatMap (fun c => if c.toNat ≥ 128 then '%' :: Nat.toDigits 16 c.toNat else [c])⟩

/-- The function `htmlEscape` of `net/http`. -/
def htmlEscape (s : String) : String :=
  ⟨s.data.flatMap (fun c =>
    if c = '&' then "&amp;".data
    else if c = '<' then "&lt;".data
    else if c = '>' then "&gt;".data
    else if c = Char.ofNat 34 then "&#34;".data
    else if c = Char.ofNat 39 then "&#39;".data
    else [c])⟩

/-- The function `http.StatusText`, on the codes the handler uses. -/
def StatusText (code : Nat) : String :=
  if code = 200 then "OK"
  else if code = 303 then "See Other"
  else if code = 500 then "Internal Server Error"
  else if code = 501 then "Not Implemented"
  else ""

/-- The target that `http.Redirect` puts in the `Location` header before
escaping: a `url` that parses without scheme and host is made an absolute path
from the request path and cleaned, any other `url` is kept. -/
def redirectTarget (env : Env) (r : Request) (url : String) : String :=
  match env.Parse url with
  | none => url
  | some u =>
    if u.Scheme = "" ∧ u.Host = "" then
      let oldpath := if r.Path = "" then "/" else r.Path
      let url1 := if url = "" ∨ url.data.head? ≠ some '/' then pathDir oldpath ++ url else url
      let query : String := ⟨url1.data.dropWhile (fun c => c != '?')⟩
      let url2 : String := ⟨url1.data.takeWhile (fun c => c != '?')⟩
      let trailing := HasSuffix url2 "/"
      let url3 := Clean url2
      let url4 := if trailing ∧ ¬ HasSuffix url3 "/" then url3 ++ "/" else url3
      url4 ++ query
    else url

/-- The function `http.Redirect`. -/
def Redirect (env : Env) (w : ResponseWriter) (r : Request) (url : String) (code : Nat) :
    ResponseWriter :=
  let target := redirectTarget env r url
  let hadCT := w.Header.any (fun kv => decide (kv.1 = "Content-Type"))
  let h1 := Header.Set w.Header "Location" (hexEscapeNonASCII target)
  let h2 := if !hadCT ∧ (r.Method = "GET" ∨ r.Method = "HEAD") then
      Header.Set h1 "Content-Type" "text/html; charset=utf-8" else h1
  let w1 := ResponseWriter.WriteHeader ⟨w.wroteHeader, w.Code, h2, w.Body⟩ code
  if !hadCT ∧ r.Method = "GET" then
    w1.Write (Chunk.text ("<a href=" ++ String.singleton (Char.ofNat 34) ++ htmlEscape target
      ++ String.singleton (Char.ofNat 34) ++ ">" ++ StatusText code ++ "</a>.\n" ++ "\n"))
  else w1

/-- What serving one request leaves behind: the response, the bodies handed to
the `asyncResponse` goroutines that were started, the outbound requests made
before the handler returned, and the panic that ended it, if any. -/
structure Served where
  w : ResponseWriter
  spawned : List String
  calls : List Call
  panicked : Option String

/-- The handler `GetRandomGopher`. -/
def GetRandomGopher (env : Env) (w : ResponseWriter) (r : Request) : Served :=
  if r.Method = "GET" then
    let gopher := GenerateRandomGopher env
    let queryFormat := Header.Get r.Query "format"
    match gopher.val with
    | Outcome.panic msg => ⟨w, [], gopher.calls, some msg⟩
    | Outcome.ret (_, some err) =>
      let w1 := w.WriteHeader StatusInternalServerError
      ⟨w1.Write (Chunk.json (Json.obj [("error", Json.str err)])), [], gopher.calls, none⟩
    | Outcome.ret (img, none) =>
      if queryFormat = format then
        let w1 := w.WriteHeader StatusOK
        ⟨w1.Write (Chunk.json (Json.obj [("img", Json.str img)])), [], gopher.calls, none⟩
      else
        ⟨Redirect env w r img StatusSeeOther, [], gopher.calls, none⟩
  else if r.Method = "POST" then
    match r.BodyErr with
    | some _ =>
      let w1 := w.WriteHeader StatusOK
      ⟨w1.Write (Chunk.text "_Something went wrong :(_"), [], [], none⟩
    | none =>
      let w1 := w.WriteHeader StatusOK
      ⟨w1.Write (Chunk.text "_New Gopher incoming_"), [r.Body], [], none⟩
  else
    ⟨w.WriteHeader StatusNotImplemented, [], [], none⟩

/-! ## Vocabulary of the specification for the image resolver -/

/-- The document a token stream stands for: the tokens before the first `ErrorToken`. -/
def document (toks : List Token) : List Token :=
  toks.takeWhile (fun t => !decide (t.Typ = TokenType.ErrorToken))

/-- A start tag named `img`. -/
def isImgStart (t : Token) : Bool :=
  decide (t.Typ = TokenType.StartTagToken) && decide (t.Data = "img")

/-- The tag carries an attribute with the given key. -/
def hasAttr (t : Token) (key : String) : Bool :=
  t.Attr.any (fun a => decide (a.Key = key))

/-- The value of the tag's first attribute with the given key, empty when there is none. -/
def attrVal (t : Token) (key : String) : String :=
  match t.Attr.find? (fun a => decide (a.Key = key)) with
  | some a => a.Val
  | none => ""

/-- In the words of the specification: the first start tag named `img` of the document. -/
def specFirstImg (toks : List Token) : Option Token :=
  (document toks).find? isImgStart

/-- The first start tag named `img` of the document that carries a `src` attribute. -/
def specFirstImgWithSrc (toks : List Token) : Option Token :=
  (document toks).find? (fun t => isImgStart t && hasAttr t "src")

/-! ## Sample environments -/

/-- An image with the given identifier. -/
def sampleImage (id : String) : Image := ⟨id, "", "", ""⟩

/-- A category with the given option identifiers. -/
def sampleCategory (ids : List String) : Category := ⟨"", "", ids.map sampleImage⟩

/-- A catalog with the given option identifiers per category. -/
def sampleCatalog (idss : List (List String)) : Artwork := ⟨idss.map sampleCategory, 0⟩

/-- An environment in which every GET succeeds, the catalog endpoint decodes to
`catalog`, the rendering endpoint's page tokenizes to `page`, every random
draw yields `draw`, `url.Parse` answers `parse`, and the callback endpoint
answers with status `status`. -/
def sampleEnv (catalog : Artwork) (page : List Token) (draw : Nat)
    (parse : String → Option URL) (status : Nat) : Env :=
  ⟨fun _ => Except.ok ⟨200, "", none⟩, fun _ _ _ => Except.ok ⟨status, "", none⟩,
    fun _ => (catalog, none), fun _ => page, fun _ => draw, parse⟩

/-- A start tag `img` with the given attributes. -/
def imgTag (attrs : List Attribute) : Token := ⟨TokenType.StartTagToken, "img", attrs⟩

/-- A page of two `img` start tags, the first with an `alt` attribute only,
the second with the `src` attribute `X`. -/
def pageTwoImgs : List Token := [imgTag [⟨"alt", "g"⟩], imgTag [⟨"src", "X"⟩]]

/-- A page with some text and one `img` start tag whose `src` is the given string. -/
def pageOneImg (src : String) : List Token :=
  [⟨TokenType.TextToken, "gopher", []⟩, imgTag [⟨"src", src⟩]]

/-- An environment in which every GET fails in the transport with the message `msg`. -/
def downEnv (msg : String) : Env :=
  ⟨fun _ => Except.error msg, fun _ _ _ => Except.error msg,
    fun _ => (Artwork.zero, none), fun _ => [], fun _ => 0, fun _ => none⟩

/-- An environment in which the catalog endpoint answers and decodes to
`catalog`, and every other GET fails in the transport with the message `msg`. -/
def saveDownEnv (catalog : Artwork) (msg : String) : Env :=
  ⟨fun url => if url = "https://gopherize.me/api/artwork" then Except.ok ⟨200, "", none⟩
      else Except.error msg,
    fun _ _ _ => Except.error msg, fun _ => (catalog, none), fun _ => [], fun _ => 0,
    fun _ => none⟩

/-- A request to `/random-gopher` with the given method, query and body. -/
def sampleRequest (method : String) (query : Header) (body : String) : Request :=
  ⟨method, "/random-gopher", query, body, none⟩

/-! ## Lemmas on joining and trimming -/

theorem flatten_snoc_sep {α : Type} (sep : α) (init : List (List α)) (last : List α) :
    (init.map (fun l => l ++ [sep])).flatten ++ last = [sep].intercalate (init ++ [last]) := by
  induction init with
  | nil => simp [List.intercalate]
  | cons a init ih =>
    cases init with
    | nil => simp [List.intercalate]
    | cons b init =>
      simp only [List.intercalate, List.map_cons, List.flatten_cons, List.cons_append,
        List.intersperse_cons_cons, List.append_assoc] at ih ⊢
      rw [ih]

theorem flatten_sep_eq {α : Type} (sep : α) (ls : List (List α)) (h : ls ≠ []) :
    (ls.map (fun l => l ++ [sep])).flatten = [sep].intercalate ls ++ [sep] := by
  rcases List.eq_nil_or_concat ls with h0 | ⟨init, last, rfl⟩
  · exact absurd h0 h
  · rw [List.concat_eq_append, ← flatten_snoc_sep]
    simp

theorem trimSuffix_flatten (comps : List String) :
    TrimSuffix ⟨(comps.map (fun c => c.data ++ ['|'])).flatten⟩ "|" = Join comps "|" := by
  by_cases h : comps = []
  · subst h
    simp [TrimSuffix, Join, List.intercalate]
  · have hmap : comps.map String.data ≠ [] := by simpa using h
    have e : (comps.map (fun c => c.data ++ ['|'])).flatten
        = ['|'].intercalate (comps.map String.data) ++ ['|'] := by
      rw [← flatten_sep_eq '|' _ hmap, List.map_map]
      rfl
    have hd : ("|" : String).data = ['|'] := rfl
    simp only [TrimSuffix, Join, e, hd]
    rw [if_pos (List.suffix_append _ _)]
    simp

/-- The loop of `GenerateGopherURL` on categories that all have an option: it
returns, and what it appended is one drawn identifier and a delimiter per category. -/
theorem urlLoop_ret (rand : Nat → Nat) (cats : List Category)
    (hne : ∀ c ∈ cats, c.Images ≠ []) (k : Nat) (url : String) :
    ∃ comps : List String,
      urlLoop rand cats k url
        = Outcome.ret (url ++ ⟨(comps.map (fun c => c.data ++ ['|'])).flatten⟩) ∧
      comps.length = cats.length ∧
      ∀ i c, cats[i]? = some c →
        ∃ img, c.Images[rand (k + i) % c.Images.length]? = some img ∧
          comps[i]? = some img.ID := by
  induction cats generalizing k url with
  | nil =>
    refine ⟨[], ?_, rfl, ?_⟩
    · simp only [urlLoop, List.map_nil, List.flatten_nil]
      congr 1
      apply String.ext
      simp [String.data_append]
    · intro i c h
      simp at h
  | cons cat rest ih =>
    have hcat : cat.Images ≠ [] := hne cat (List.mem_cons_self _ _)
    have hpos : 0 < cat.Images.length := List.length_pos.mpr hcat
    have hlt : rand k % cat.Images.length < cat.Images.length := Nat.mod_lt _ hpos
    obtain ⟨comps, hrun, hlen, hsel⟩ :=
      ih (fun c hc => hne c (List.mem_cons_of_mem _ hc)) (k + 1)
        (url ++ ((cat.Images.get ⟨_, hlt⟩).ID ++ "|"))
    refine ⟨(cat.Images.get ⟨_, hlt⟩).ID :: comps, ?_, by simp [hlen], ?_⟩
    · have hidx : cat.Images[rand k % cat.Images.length]? = some (cat.Images.get ⟨_, hlt⟩) := by
        simp [List.getElem?_eq_getElem hlt]
      simp only [urlLoop, Intn, if_neg (Nat.pos_iff_ne_zero.mp hpos), hidx, hrun]
      congr 1
      apply String.ext
      simp [String.data_append]
    · intro i c h
      cases i with
      | zero =>
        simp only [List.getElem?_cons_zero, Option.some.injEq] at h
        subst h
        exact ⟨cat.Images.get ⟨_, hlt⟩, by simp [List.getElem?_eq_getElem hlt], by simp⟩
      | succ j =>
        simp only [List.getElem?_cons_succ] at h
        obtain ⟨img, h1, h2⟩ := hsel j c h
        refine ⟨img, ?_, by simpa using h2⟩
        rw [← h1]
        congr 3
        omega

theorem split_join (comps : List String) (h : comps ≠ [])
    (hsep : ∀ c ∈ comps, '|' ∉ c.data) : Split (Join comps "|") '|' = comps := by
  have hd : ("|" : String).data = ['|'] := rfl
  have h1 : ∀ l ∈ comps.map String.data, '|' ∉ l := by
    intro l hl
    obtain ⟨c, hc, rfl⟩ := List.mem_map.mp hl
    exact hsep c hc
  have h2 : comps.map String.data ≠ [] := by simpa using h
  simp only [Split, Join, hd]
  have hid : String.mk ∘ String.data = id := funext (fun _ => rfl)
  rw [List.splitOn_intercalate _ '|' h1 h2, List.map_map, hid, List.map_id]

theorem join_no_trailing (comps : List String) (hsep : ∀ c ∈ comps, '|' ∉ c.data)
    (hne : ∀ c ∈ comps, c ≠ "") : ¬ HasSuffix (Join comps "|") "|" := by
  have hd : ("|" : String).data = ['|'] := rfl
  rcases List.eq_nil_or_concat comps with h0 | ⟨init, last, rfl⟩
  · subst h0
    simp [HasSuffix, Join, List.intercalate, hd]
  · have hlast : last ∈ init.concat last := by simp
    have hdata : last.data ≠ [] := by
      intro hnil
      exact hne last hlast (String.ext hnil)
    rcases List.eq_nil_or_concat last.data with h0 | ⟨t, z, hz⟩
    · exact absurd h0 hdata
    · have hzmem : z ∈ last.data := by rw [hz]; simp
      have hzne : z ≠ '|' := by
        intro hzeq
        exact hsep last hlast (hzeq ▸ hzmem)
      intro hsuf
      simp only [HasSuffix, Join, hd, List.concat_eq_append, List.map_append, List.map_cons,
        List.map_nil] at hsuf
      rw [← flatten_snoc_sep, hz, List.concat_eq_append, ← List.append_assoc] at hsuf
      obtain ⟨u, hu⟩ := hsuf
      have := List.append_inj_right' hu rfl
      simp at this
      exact hzne this.symm

/-! ## The claims -/

/-- C1 (counterexample): with the one-option categories `a` and the empty
identifier, both non-empty categories, the key is `a|`, which ends in the
delimiter. -/
theorem C1_counterexample :
    (∀ c ∈ (sampleCatalog [["a"], [""]]).Categories, c.Images ≠ []) ∧
    (GenerateGopherURL (sampleEnv (sampleCatalog [["a"], [""]]) [] 0 (fun _ => none) 200)).val
      = Outcome.ret ("a|", none) ∧
    HasSuffix "a|" "|" := by
  refine ⟨by decide, by decide, by decide⟩

/-- C1 (amended): when the catalog was fetched and every category has an
option, `GenerateGopherURL` returns without error the key `Join comps "|"` of
exactly one component per category, the i-th being the identifier of the
option of the i-th category at the drawn index; and when no identifier
contains the delimiter, splitting the key at the delimiter gives back these
components (for a catalog with a category), and the key does not end in the
delimiter if moreover no identifier is empty. -/
theorem C1_key_of_components (env : Env) (catalog : Artwork)
    (hfetch : (GetArtwork env).val = (catalog, none))
    (hne : ∀ c ∈ catalog.Categories, c.Images ≠ []) :
    ∃ comps : List String,
      (GenerateGopherURL env).val = Outcome.ret (Join comps "|", none) ∧
      comps.length = catalog.Categories.length ∧
      (∀ i c, catalog.Categories[i]? = some c →
        ∃ img ∈ c.Images, c.Images[env.rand i % c.Images.length]? = some img ∧
          comps[i]? = some img.ID) ∧
      ((∀ c ∈ catalog.Categories, ∀ img ∈ c.Images, '|' ∉ img.ID.data) →
        (catalog.Categories ≠ [] → Split (Join comps "|") '|' = comps) ∧
        ((∀ c ∈ catalog.Categories, ∀ img ∈ c.Images, img.ID ≠ "") →
          ¬ HasSuffix (Join comps "|") "|")) := by
  obtain ⟨comps, hrun, hlen, hsel⟩ := urlLoop_ret env.rand catalog.Categories hne 0 ""
  have hsel2 : ∀ i c, catalog.Categories[i]? = some c →
      ∃ img ∈ c.Images, c.Images[env.rand i % c.Images.length]? = some img ∧
        comps[i]? = some img.ID := by
    intro i c hc
    obtain ⟨img, h1, h2⟩ := hsel i c hc
    rw [Nat.zero_add] at h1
    exact ⟨img, List.getElem?_mem h1, h1, h2⟩
  have hall : ∀ (P : String → Prop),
      (∀ c ∈ catalog.Categories, ∀ img ∈ c.Images, P img.ID) → ∀ s ∈ comps, P s := by
    intro P hP s hs
    obtain ⟨i, hi, rfl⟩ := List.mem_iff_getElem.mp hs
    have hi2 : i < catalog.Categories.length := hlen ▸ hi
    obtain ⟨img, hmem, -, h2⟩ := hsel2 i _ (List.getElem?_eq_getElem hi2)
    rw [List.getElem?_eq_getElem hi] at h2
    rw [Option.some.inj h2]
    exact hP _ (List.getElem_mem hi2) img hmem
  refine ⟨comps, ?_, hlen, hsel2, ?_⟩
  · have hempty : ("" : String) ++ ⟨(comps.map (fun c => c.data ++ ['|'])).flatten⟩
        = ⟨(comps.map (fun c => c.data ++ ['|'])).flatten⟩ := by
      apply String.ext
      simp [String.data_append]
    rw [hempty] at hrun
    simp only [GenerateGopherURL, hfetch, hrun, trimSuffix_flatten]
  · intro hsep
    refine ⟨fun hcat => split_join comps ?_ (hall _ hsep), fun hnonempty =>
      join_no_trailing comps (hall _ hsep) (hall _ hnonempty)⟩
    intro h0
    apply hcat
    rw [h0] at hlen
    exact List.length_eq_zero.mp hlen.symm

/-- C1 (witness): a catalog with the categories `a, b` and `c`, every draw being 1. -/
theorem C1_key_of_components_witness :
    (GetArtwork (sampleEnv (sampleCatalog [["a", "b"], ["c"]]) [] 1 (fun _ => none) 200)).val
      = (sampleCatalog [["a", "b"], ["c"]], none) ∧
    (∀ c ∈ (sampleCatalog [["a", "b"], ["c"]]).Categories, c.Images ≠ []) ∧
    ∃ comps : List String,
      (GenerateGopherURL (sampleEnv (sampleCatalog [["a", "b"], ["c"]]) [] 1
        (fun _ => none) 200)).val = Outcome.ret (Join comps "|", none) ∧
      comps.length = 2 ∧ Split (Join comps "|") '|' = comps ∧
      ¬ HasSuffix (Join comps "|") "|" := by
  refine ⟨rfl, by decide, ?_⟩
  obtain ⟨comps, h1, h2, -, h4⟩ :=
    C1_key_of_components (sampleEnv (sampleCatalog [["a", "b"], ["c"]]) [] 1 (fun _ => none) 200)
      (sampleCatalog [["a", "b"], ["c"]]) rfl (by decide)
  have h5 := h4 (by decide)
  exact ⟨comps, h1, h2, h5.1 (by decide), h5.2 (by decide)⟩

/-- The loop of `GenerateGopherURL` on categories one of which has no option:
it panics in `rand.Intn`, whatever the random source yields. -/
theorem urlLoop_panic (rand : Nat → Nat) (cats : List Category)
    (hempty : ∃ c ∈ cats, c.Images = []) (k : Nat) (url : String) :
    urlLoop rand cats k url = Outcome.panic "invalid argument to Intn" := by
  induction cats generalizing k url with
  | nil =>
    obtain ⟨c, hc, -⟩ := hempty
    simp at hc
  | cons cat rest ih =>
    by_cases hcat : cat.Images = []
    · simp [urlLoop, Intn, hcat]
    · have hpos : 0 < cat.Images.length := List.length_pos.mpr hcat
      have hlt : rand k % cat.Images.length < cat.Images.length := Nat.mod_lt _ hpos
      have hrest : ∃ c ∈ rest, c.Images = [] := by
        obtain ⟨c, hc, h0⟩ := hempty
        rcases List.mem_cons.mp hc with rfl | hmem
        · exact absurd h0 hcat
        · exact ⟨c, hmem, h0⟩
      simp only [urlLoop, Intn, if_neg (Nat.pos_iff_ne_zero.mp hpos),
        List.getElem?_eq_getElem hlt]
      exact ih hrest _ _

/-- C2 (counterexample): on a catalog whose only category has no option,
`GenerateGopherURL` panics; it returns neither a key nor an error value. -/
theorem C2_counterexample :
    (GenerateGopherURL (sampleEnv (sampleCatalog [[]]) [] 0 (fun _ => none) 200)).val
      = Outcome.panic "invalid argument to Intn" ∧
    ¬ ∃ key err, (GenerateGopherURL (sampleEnv (sampleCatalog [[]]) [] 0
        (fun _ => none) 200)).val = Outcome.ret (key, err) := by
  refine ⟨by decide, ?_⟩
  rintro ⟨key, err, h⟩
  have h2 : (GenerateGopherURL (sampleEnv (sampleCatalog [[]]) [] 0 (fun _ => none) 200)).val
      = Outcome.panic "invalid argument to Intn" := by decide
  rw [h2] at h
  cases h

/-- C2 (amended): when the fetched catalog has a category with no option,
`GenerateGopherURL` ends in the run-time panic of `rand.Intn`, the same for
every random source; no key and no error value reaches the caller. -/
theorem C2_empty_category_panics (env : Env) (catalog : Artwork)
    (hfetch : (GetArtwork env).val = (catalog, none))
    (hempty : ∃ c ∈ catalog.Categories, c.Images = []) :
    (GenerateGopherURL env).val = Outcome.panic "invalid argument to Intn" ∧
    (∀ key err, (GenerateGopherURL env).val ≠ Outcome.ret (key, err)) ∧
    (∀ env2 : Env, (GetArtwork env2).val = (catalog, none) →
      (GenerateGopherURL env2).val = (GenerateGopherURL env).val) := by
  have key : ∀ e : Env, (GetArtwork e).val = (catalog, none) →
      (GenerateGopherURL e).val = Outcome.panic "invalid argument to Intn" := by
    intro e he
    simp only [GenerateGopherURL, he, urlLoop_panic e.rand catalog.Categories hempty 0 ""]
  refine ⟨key env hfetch, ?_, fun env2 h2 => (key env2 h2).trans (key env hfetch).symm⟩
  intro k e h
  rw [key env hfetch] at h
  cases h

/-- C2 (witness): a catalog whose second category has no option. -/
theorem C2_empty_category_panics_witness :
    (GetArtwork (sampleEnv (sampleCatalog [["a"], []]) [] 3 (fun _ => none) 200)).val
      = (sampleCatalog [["a"], []], none) ∧
    (∃ c ∈ (sampleCatalog [["a"], []]).Categories, c.Images = []) ∧
    (GenerateGopherURL (sampleEnv (sampleCatalog [["a"], []]) [] 3 (fun _ => none) 200)).val
      = Outcome.panic "invalid argument to Intn" :=
  ⟨rfl, by decide,
    (C2_empty_category_panics (sampleEnv (sampleCatalog [["a"], []]) [] 3 (fun _ => none) 200)
      (sampleCatalog [["a"], []]) rfl (by decide)).1⟩

theorem find?_and_of_find? {α : Type} (p q : α → Bool) (l : List α) (t : α)
    (h : l.find? p = some t) (hq : q t = true) :
    l.find? (fun x => p x && q x) = some t := by
  induction l with
  | nil => simp at h
  | cons a l ih =>
    by_cases hp : p a = true
    · have hat : a = t := by simpa [List.find?_cons, hp] using h
      subst hat
      simp [List.find?_cons, hp, hq]
    · have hp2 : p a = false := by simpa using hp
      rw [List.find?_cons, hp2] at h
      simp only [List.find?_cons, hp2, Bool.false_and]
      exact ih h

theorem find?_and_none {α : Type} (p q : α → Bool) (l : List α) (h : l.find? p = none) :
    l.find? (fun x => p x && q x) = none := by
  rw [List.find?_eq_none] at h ⊢
  intro x hx
  have := h x hx
  simp [this]

theorem srcAttr_eq (attrs : List Attribute) :
    srcAttr attrs = (attrs.find? (fun a => decide (a.Key = "src"))).map Attribute.Val := by
  induction attrs with
  | nil => rfl
  | cons a rest ih =>
    by_cases h : a.Key = "src"
    · simp [srcAttr, List.find?_cons, h]
    · simp [srcAttr, List.find?_cons, h, ih]

theorem srcAttr_some (t : Token) (val : String) (h : srcAttr t.Attr = some val) :
    hasAttr t "src" = true ∧ attrVal t "src" = val := by
  rw [srcAttr_eq] at h
  cases hf : t.Attr.find? (fun a => decide (a.Key = "src")) with
  | none => simp [hf] at h
  | some a =>
    rw [hf] at h
    refine ⟨?_, ?_⟩
    · have hmem := List.mem_of_find?_eq_some hf
      have hkey := List.find?_some hf
      simp only [hasAttr, List.any_eq_true]
      exact ⟨a, hmem, hkey⟩
    · simp only [attrVal, hf]
      simpa using h

theorem srcAttr_none (t : Token) (h : srcAttr t.Attr = none) : hasAttr t "src" = false := by
  rw [srcAttr_eq] at h
  have hf : t.Attr.find? (fun a => decide (a.Key = "src")) = none := by
    cases hf : t.Attr.find? (fun a => decide (a.Key = "src")) with
    | none => rfl
    | some a => simp [hf] at h
  rw [List.find?_eq_none] at hf
  simp only [hasAttr, List.any_eq_false]
  exact hf

/-- The crawl loop returns the `src` value of the first `img` start tag of
the document that has one, and the empty string when there is none. -/
theorem crawl_spec (toks : List Token) :
    crawl toks =
      (match specFirstImgWithSrc toks with
        | some t => attrVal t "src"
        | none => "", none) := by
  induction toks with
  | nil => rfl
  | cons t rest ih =>
    by_cases herr : t.Typ = TokenType.ErrorToken
    · have hdoc : document (t :: rest) = [] := by
        simp [document, List.takeWhile_cons, herr]
      simp [crawl, herr, specFirstImgWithSrc, hdoc]
    · have hdoc : document (t :: rest) = t :: document rest := by
        simp [document, List.takeWhile_cons, herr]
      by_cases himg : t.Typ = TokenType.StartTagToken ∧ t.Data = "img"
      · cases hsrc : srcAttr t.Attr with
        | some val =>
          obtain ⟨h1, h2⟩ := srcAttr_some t val hsrc
          have hp : (isImgStart t && hasAttr t "src") = true := by
            simp [isImgStart, himg.1, himg.2, h1]
          have hfirst : specFirstImgWithSrc (t :: rest) = some t := by
            simp [specFirstImgWithSrc, hdoc, List.find?_cons, hp]
          have hc : crawl (t :: rest) = (val, none) := by
            simp [crawl, himg.1, himg.2, hsrc]
          rw [hc, hfirst]
          simp [h2]
        | none =>
          have h1 := srcAttr_none t hsrc
          have hp : (isImgStart t && hasAttr t "src") = false := by
            simp [h1]
          have hfirst : specFirstImgWithSrc (t :: rest) = specFirstImgWithSrc rest := by
            simp [specFirstImgWithSrc, hdoc, List.find?_cons, hp]
          have hc : crawl (t :: rest) = crawl rest := by
            simp [crawl, himg.1, himg.2, hsrc]
          rw [hc, hfirst, ih]
      · have hp : (isImgStart t && hasAttr t "src") = false := by
          have : isImgStart t = false := by
            simp only [isImgStart, Bool.and_eq_false_iff, decide_eq_false_iff_not]
            exact not_and_or.mp himg
          simp [this]
        have hfirst : specFirstImgWithSrc (t :: rest) = specFirstImgWithSrc rest := by
          simp [specFirstImgWithSrc, hdoc, List.find?_cons, hp]
        have hc : crawl (t :: rest) = crawl rest := by
          cases hty : t.Typ with
          | StartTagToken =>
            have hdata : t.Data ≠ "img" := fun h => himg ⟨hty, h⟩
            simp [crawl, hty, hdata]
          | ErrorToken => exact absurd hty herr
          | TextToken => simp [crawl, hty]
          | EndTagToken => simp [crawl, hty]
          | SelfClosingTagToken => simp [crawl, hty]
          | CommentToken => simp [crawl, hty]
          | DoctypeToken => simp [crawl, hty]
        rw [hc, hfirst, ih]

/-- C3 (counterexample): the first `img` start tag of the page has no `src`
attribute, and `GenerateGopherImage` returns the `src` of the second one. -/
theorem C3_counterexample :
    (GenerateGopherImage (sampleEnv (sampleCatalog []) pageTwoImgs 0 (fun _ => none) 200) "k").val
      = ("X", none) ∧
    specFirstImg pageTwoImgs = some (imgTag [⟨"alt", "g"⟩]) ∧
    (∀ a ∈ (imgTag [⟨"alt", "g"⟩]).Attr, ¬ (a.Key = "src" ∧ a.Val = "X")) := by
  refine ⟨by decide, by decide, by decide⟩

/-- C3 (amended): when the rendering endpoint answers, `GenerateGopherImage`
returns, with no error, the value of the first `src` attribute of the first
`img` start tag of the document that has a `src` attribute, and the empty
string when no start tag is an `img` with a `src`; so a document with no
`img` start tag yields the empty string, and a document whose first `img`
start tag has a `src` yields that value. -/
theorem C3_first_img_with_src (env : Env) (url : String) (resp : Response)
    (hget : env.Get ("https://gopherize.me/save?images=" ++ url) = Except.ok resp) :
    (∀ t, specFirstImgWithSrc (env.Tokenize resp.Body) = some t →
      (GenerateGopherImage env url).val = (attrVal t "src", none)) ∧
    (specFirstImgWithSrc (env.Tokenize resp.Body) = none →
      (GenerateGopherImage env url).val = ("", none)) ∧
    (specFirstImg (env.Tokenize resp.Body) = none →
      (GenerateGopherImage env url).val = ("", none)) ∧
    (∀ t, specFirstImg (env.Tokenize resp.Body) = some t → hasAttr t "src" = true →
      (GenerateGopherImage env url).val = (attrVal t "src", none)) := by
  have hval : (GenerateGopherImage env url).val = crawl (env.Tokenize resp.Body) := by
    simp only [GenerateGopherImage, hget]
  rw [hval, crawl_spec]
  refine ⟨?_, ?_, ?_, ?_⟩
  · intro t ht
    rw [ht]
  · intro hnone
    rw [hnone]
  · intro hnone
    have h2 : specFirstImgWithSrc (env.Tokenize resp.Body) = none :=
      find?_and_none _ _ _ hnone
    rw [h2]
  · intro t ht hsrc
    have h2 : specFirstImgWithSrc (env.Tokenize resp.Body) = some t :=
      find?_and_of_find? _ _ _ t ht hsrc
    rw [h2]

/-- C3 (witness): a page with one `img` start tag whose `src` is `X`. -/
theorem C3_first_img_with_src_witness :
    (sampleEnv (sampleCatalog []) (pageOneImg "X") 0 (fun _ => none) 200).Get
      ("https://gopherize.me/save?images=" ++ "k") = Except.ok ⟨200, "", none⟩ ∧
    (GenerateGopherImage (sampleEnv (sampleCatalog []) (pageOneImg "X") 0 (fun _ => none) 200)
      "k").val = ("X", none) :=
  ⟨rfl, (C3_first_img_with_src (sampleEnv (sampleCatalog []) (pageOneImg "X") 0 (fun _ => none) 200)
    "k" ⟨200, "", none⟩ rfl).1 (imgTag [⟨"src", "X"⟩]) (by decide)⟩

/-- C4 (counterexample): the catalog's only category has no option, so key
generation fails in the panic of `rand.Intn`; the handler of
`GET /random-gopher?format=json` then writes no status and no body, and the
panic leaves the handler: there is no 500 answer with an error body. -/
theorem C4_counterexample :
    (sampleRequest "GET" [("format", "json")] "").Method = "GET" ∧
    Header.Get (sampleRequest "GET" [("format", "json")] "").Query "format" = "json" ∧
    (GenerateGopherURL (sampleEnv (sampleCatalog [[]]) (pageOneImg "X") 0 (fun _ => none) 200)).val
      = Outcome.panic "invalid argument to Intn" ∧
    (GetRandomGopher (sampleEnv (sampleCatalog [[]]) (pageOneImg "X") 0 (fun _ => none) 200)
      ResponseWriter.fresh (sampleRequest "GET" [("format", "json")] "")).panicked
      = some "invalid argument to Intn" ∧
    (GetRandomGopher (sampleEnv (sampleCatalog [[]]) (pageOneImg "X") 0 (fun _ => none) 200)
      ResponseWriter.fresh (sampleRequest "GET" [("format", "json")] "")).w.wroteHeader = false ∧
    (GetRandomGopher (sampleEnv (sampleCatalog [[]]) (pageOneImg "X") 0 (fun _ => none) 200)
      ResponseWriter.fresh (sampleRequest "GET" [("format", "json")] "")).w.Code ≠ 500 ∧
    (GetRandomGopher (sampleEnv (sampleCatalog [[]]) (pageOneImg "X") 0 (fun _ => none) 200)
      ResponseWriter.fresh (sampleRequest "GET" [("format", "json")] "")).w.Body = [] := by
  refine ⟨rfl, by decide, by decide, by decide, by decide, by decide, by rfl⟩

/-- What `GenerateRandomGopher` returns, stage by stage: the error of
`GenerateGopherURL`, else whatever `GenerateGopherImage` returns on the key;
a panic of the key generation is passed on. -/
theorem GenerateRandomGopher_stages (env : Env) :
    (∀ key, (GenerateGopherURL env).val = Outcome.ret (key, none) →
      (GenerateRandomGopher env).val = Outcome.ret (GenerateGopherImage env key).val) ∧
    (∀ x m, (GenerateGopherURL env).val = Outcome.ret (x, some m) →
      (GenerateRandomGopher env).val = Outcome.ret (x, some m)) ∧
    (∀ msg, (GenerateGopherURL env).val = Outcome.panic msg →
      (GenerateRandomGopher env).val = Outcome.panic msg) := by
  refine ⟨?_, ?_, ?_⟩
  · intro key h
    simp only [GenerateRandomGopher, h]
  · intro x m h
    simp only [GenerateRandomGopher, h]
  · intro msg h
    simp only [GenerateRandomGopher, h]

/-- A failure of `GetArtwork` is the error that `GenerateGopherURL` returns. -/
theorem GenerateGopherURL_of_fetch_error (env : Env) (a : Artwork) (m : String)
    (h : (GetArtwork env).val = (a, some m)) :
    (GenerateGopherURL env).val = Outcome.ret ("", some m) := by
  simp only [GenerateGopherURL, h]

/-- A transport failure of the GET to the rendering endpoint is the error
that `GenerateGopherImage` returns. -/
theorem GenerateGopherImage_of_get_error (env : Env) (key m : String)
    (h : env.Get ("https://gopherize.me/save?images=" ++ key) = Except.error m) :
    (GenerateGopherImage env key).val = ("", some m) := by
  simp only [GenerateGopherImage, h]

/-- The answer of the handler to a GET, from the outcome of `GenerateRandomGopher`. -/
theorem GetRandomGopher_get_json (env : Env) (r : Request) (hget : r.Method = "GET")
    (hfmt : Header.Get r.Query "format" = "json") :
    (∀ u, (GenerateRandomGopher env).val = Outcome.ret (u, none) →
      (GetRandomGopher env ResponseWriter.fresh r).w.Code = 200 ∧
      (GetRandomGopher env ResponseWriter.fresh r).w.Body
        = [Chunk.json (Json.obj [("img", Json.str u)])]) ∧
    (∀ x m, (GenerateRandomGopher env).val = Outcome.ret (x, some m) →
      (GetRandomGopher env ResponseWriter.fresh r).w.Code = 500 ∧
      (GetRandomGopher env ResponseWriter.fresh r).w.Body
        = [Chunk.json (Json.obj [("error", Json.str m)])]) ∧
    (∀ msg, (GenerateRandomGopher env).val = Outcome.panic msg →
      (GetRandomGopher env ResponseWriter.fresh r).panicked = some msg ∧
      (GetRandomGopher env ResponseWriter.fresh r).w.wroteHeader = false ∧
      (GetRandomGopher env ResponseWriter.fresh r).w.Body = []) := by
  refine ⟨?_, ?_, ?_⟩
  · intro u hu
    simp [GetRandomGopher, hget, hfmt, hu, format, ResponseWriter.fresh,
      ResponseWriter.WriteHeader, ResponseWriter.Write, StatusOK]
  · intro x m hm
    simp [GetRandomGopher, hget, hm, ResponseWriter.fresh,
      ResponseWriter.WriteHeader, ResponseWriter.Write, StatusInternalServerError]
  · intro msg hp
    simp [GetRandomGopher, hget, hp, ResponseWriter.fresh]

/-- C4 (amended): a GET whose `format` is `json` is answered, stage by stage,
(1) with status 200 and the JSON object with the one field `img` holding `u`
when `GenerateGopherURL` returns a key without error and `GenerateGopherImage`
returns `u` without error on that key; (2) with status 500 and the JSON
object with the one field `error` holding `m` when `GenerateGopherURL`
returns the error `m`, in particular (3) when `GetArtwork` fails with `m`;
(4) with the same 500 answer when the key was generated and
`GenerateGopherImage` returns the error `m`, in particular (5) when the GET to
the rendering endpoint fails with `m`; and (6) with nothing at all, neither
status nor body, when the key generation panics: the panic leaves the handler. -/
theorem C4_get_json (env : Env) (r : Request) (hget : r.Method = "GET")
    (hfmt : Header.Get r.Query "format" = "json") :
    (∀ key u, (GenerateGopherURL env).val = Outcome.ret (key, none) →
      (GenerateGopherImage env key).val = (u, none) →
      (GetRandomGopher env ResponseWriter.fresh r).w.Code = 200 ∧
      (GetRandomGopher env ResponseWriter.fresh r).w.Body
        = [Chunk.json (Json.obj [("img", Json.str u)])]) ∧
    (∀ x m, (GenerateGopherURL env).val = Outcome.ret (x, some m) →
      (GetRandomGopher env ResponseWriter.fresh r).w.Code = 500 ∧
      (GetRandomGopher env ResponseWriter.fresh r).w.Body
        = [Chunk.json (Json.obj [("error", Json.str m)])]) ∧
    (∀ a m, (GetArtwork env).val = (a, some m) →
      (GetRandomGopher env ResponseWriter.fresh r).w.Code = 500 ∧
      (GetRandomGopher env ResponseWriter.fresh r).w.Body
        = [Chunk.json (Json.obj [("error", Json.str m)])]) ∧
    (∀ key x m, (GenerateGopherURL env).val = Outcome.ret (key, none) →
      (GenerateGopherImage env key).val = (x, some m) →
      (GetRandomGopher env ResponseWriter.fresh r).w.Code = 500 ∧
      (GetRandomGopher env ResponseWriter.fresh r).w.Body
        = [Chunk.json (Json.obj [("error", Json.str m)])]) ∧
    (∀ key m, (GenerateGopherURL env).val = Outcome.ret (key, none) →
      env.Get ("https://gopherize.me/save?images=" ++ key) = Except.error m →
      (GetRandomGopher env ResponseWriter.fresh r).w.Code = 500 ∧
      (GetRandomGopher env ResponseWriter.fresh r).w.Body
        = [Chunk.json (Json.obj [("error", Json.str m)])]) ∧
    (∀ msg, (GenerateGopherURL env).val = Outcome.panic msg →
      (GetRandomGopher env ResponseWriter.fresh r).panicked = some msg ∧
      (GetRandomGopher env ResponseWriter.fresh r).w.wroteHeader = false ∧
      (GetRandomGopher env ResponseWriter.fresh r).w.Body = []) := by
  obtain ⟨hok, herr, hpanic⟩ := GetRandomGopher_get_json env r hget hfmt
  obtain ⟨sok, serr, spanic⟩ := GenerateRandomGopher_stages env
  refine ⟨?_, ?_, ?_, ?_, ?_, ?_⟩
  · intro key u hkey himg
    exact hok u (by rw [sok key hkey, himg])
  · intro x m hkey
    exact herr x m (serr x m hkey)
  · intro a m hfetch
    exact herr "" m (serr "" m (GenerateGopherURL_of_fetch_error env a m hfetch))
  · intro key x m hkey himg
    exact herr x m (by rw [sok key hkey, himg])
  · intro key m hkey hdown
    exact herr "" m (by rw [sok key hkey, GenerateGopherImage_of_get_error env key m hdown])
  · intro msg hkey
    exact hpanic msg (spanic msg hkey)

/-- C4 (witness): `GET /random-gopher?format=json` when the page has the image
`X` (answer 200), when the catalog cannot be fetched (answer 500), and when the
rendering endpoint cannot be reached (answer 500). -/
theorem C4_get_json_witness :
    (sampleRequest "GET" [("format", "json")] "").Method = "GET" ∧
    Header.Get (sampleRequest "GET" [("format", "json")] "").Query "format" = "json" ∧
    ((GetRandomGopher (sampleEnv (sampleCatalog [["a"]]) (pageOneImg "X") 0 (fun _ => none) 200)
        ResponseWriter.fresh (sampleRequest "GET" [("format", "json")] "")).w.Code = 200 ∧
      (GetRandomGopher (sampleEnv (sampleCatalog [["a"]]) (pageOneImg "X") 0 (fun _ => none) 200)
        ResponseWriter.fresh (sampleRequest "GET" [("format", "json")] "")).w.Body
          = [Chunk.json (Json.obj [("img", Json.str "X")])]) ∧
    ((GetRandomGopher (downEnv "boom") ResponseWriter.fresh
        (sampleRequest "GET" [("format", "json")] "")).w.Code = 500 ∧
      (GetRandomGopher (downEnv "boom") ResponseWriter.fresh
        (sampleRequest "GET" [("format", "json")] "")).w.Body
          = [Chunk.json (Json.obj [("error", Json.str "boom")])]) ∧
    ((GetRandomGopher (saveDownEnv (sampleCatalog [["a"]]) "boom") ResponseWriter.fresh
        (sampleRequest "GET" [("format", "json")] "")).w.Code = 500 ∧
      (GetRandomGopher (saveDownEnv (sampleCatalog [["a"]]) "boom") ResponseWriter.fresh
        (sampleRequest "GET" [("format", "json")] "")).w.Body
          = [Chunk.json (Json.obj [("error", Json.str "boom")])]) :=
  ⟨rfl, by decide,
    (C4_get_json (sampleEnv (sampleCatalog [["a"]]) (pageOneImg "X") 0 (fun _ => none) 200)
      (sampleRequest "GET" [("format", "json")] "") rfl (by decide)).1 "a" "X"
      (by decide) (by decide),
    (C4_get_json (downEnv "boom") (sampleRequest "GET" [("format", "json")] "") rfl
      (by decide)).2.2.1 Artwork.zero "boom" (by decide),
    (C4_get_json (saveDownEnv (sampleCatalog [["a"]]) "boom")
      (sampleRequest "GET" [("format", "json")] "") rfl (by decide)).2.2.2.2.1 "a" "boom"
      (by decide) rfl⟩

theorem hexEscapeNonASCII_ascii (s : String) (h : ∀ c ∈ s.data, c.toNat < 128) :
    hexEscapeNonASCII s = s := by
  have key : ∀ l : List Char, (∀ c ∈ l, c.toNat < 128) →
      l.flatMap (fun c => if c.toNat ≥ 128 then '%' :: Nat.toDigits 16 c.toNat else [c]) = l := by
    intro l
    induction l with
    | nil => intro _; rfl
    | cons a l ih =>
      intro hl
      have ha : ¬ a.toNat ≥ 128 := Nat.not_le.mpr (hl a (List.mem_cons_self _ _))
      rw [List.flatMap_cons, if_neg ha, ih (fun c hc => hl c (List.mem_cons_of_mem _ hc))]
      rfl
  apply String.ext
  simp only [hexEscapeNonASCII]
  exact key s.data h

theorem redirectTarget_kept (env : Env) (r : Request) (url : String)
    (h : ∀ p, env.Parse url = some p → ¬ (p.Scheme = "" ∧ p.Host = "")) :
    redirectTarget env r url = url := by
  unfold redirectTarget
  cases hp : env.Parse url with
  | none => rfl
  | some p => simp only [if_neg (h p hp)]

/-- The `Location` header and the status code that `http.Redirect` leaves on a
fresh response writer. -/
theorem Redirect_fresh (env : Env) (r : Request) (url : String) (code : Nat) :
    (Redirect env ResponseWriter.fresh r url code).Code = code ∧
    Header.Get (Redirect env ResponseWriter.fresh r url code).Header "Location"
      = hexEscapeNonASCII (redirectTarget env r url) := by
  unfold Redirect
  simp only [ResponseWriter.fresh, List.any_nil, Bool.not_false, true_and]
  by_cases hG : r.Method = "GET"
  · simp [hG, ResponseWriter.WriteHeader, ResponseWriter.Write, Header.Set, Header.Get,
      List.find?_cons]
  · by_cases hH : r.Method = "HEAD"
    · simp [hH, ResponseWriter.WriteHeader, Header.Set, Header.Get, List.find?_cons]
    · simp [hG, hH, ResponseWriter.WriteHeader, Header.Set, Header.Get, List.find?_cons]

/-- C5 (counterexample): the page's image is the relative URL `gopher.png`,
which `url.Parse` reads without scheme and host; the redirect of
`GET /random-gopher` then carries the location `/gopher.png`. -/
theorem C5_counterexample :
    (GenerateRandomGopher (sampleEnv (sampleCatalog [["a"]]) (pageOneImg "gopher.png") 0
      (fun _ => some ⟨"", ""⟩) 200)).val = Outcome.ret ("gopher.png", none) ∧
    (GetRandomGopher (sampleEnv (sampleCatalog [["a"]]) (pageOneImg "gopher.png") 0
      (fun _ => some ⟨"", ""⟩) 200) ResponseWriter.fresh (sampleRequest "GET" [] "")).w.Code = 303 ∧
    Header.Get (GetRandomGopher (sampleEnv (sampleCatalog [["a"]]) (pageOneImg "gopher.png") 0
      (fun _ => some ⟨"", ""⟩) 200) ResponseWriter.fresh (sampleRequest "GET" [] "")).w.Header
      "Location" = "/gopher.png" ∧
    ("/gopher.png" : String) ≠ "gopher.png" := by
  refine ⟨by decide, by decide, by decide, by decide⟩

/-- C5 (amended): a GET whose `format` is not `json` is answered, when
generation and resolution succeed with the image URL `u`, with status 303
and the location that `http.Redirect` derives from `u`; that location is `u`
itself when `u` is ASCII and `url.Parse` finds a scheme or a host in it or
rejects it. -/
theorem C5_get_redirect (env : Env) (r : Request) (u : String) (hget : r.Method = "GET")
    (hfmt : Header.Get r.Query "format" ≠ "json")
    (hok : (GenerateRandomGopher env).val = Outcome.ret (u, none)) :
    (GetRandomGopher env ResponseWriter.fresh r).w.Code = 303 ∧
    Header.Get (GetRandomGopher env ResponseWriter.fresh r).w.Header "Location"
      = hexEscapeNonASCII (redirectTarget env r u) ∧
    ((∀ p, env.Parse u = some p → ¬ (p.Scheme = "" ∧ p.Host = "")) →
      (∀ c ∈ u.data, c.toNat < 128) →
      Header.Get (GetRandomGopher env ResponseWriter.fresh r).w.Header "Location" = u) := by
  have hserved : (GetRandomGopher env ResponseWriter.fresh r).w
      = Redirect env ResponseWriter.fresh r u StatusSeeOther := by
    simp only [GetRandomGopher, hget, hok, format, if_neg hfmt, if_true]
  rw [hserved]
  obtain ⟨h1, h2⟩ := Redirect_fresh env r u StatusSeeOther
  refine ⟨h1, h2, ?_⟩
  intro habs hascii
  rw [h2, redirectTarget_kept env r u habs, hexEscapeNonASCII_ascii u hascii]

/-- C5 (witness): `GET /random-gopher` when the page's image is an absolute URL. -/
theorem C5_get_redirect_witness :
    (sampleRequest "GET" [] "").Method = "GET" ∧
    Header.Get (sampleRequest "GET" [] "").Query "format" ≠ "json" ∧
    (GenerateRandomGopher (sampleEnv (sampleCatalog [["a"]]) (pageOneImg "https://g.me/x.png") 0
      (fun _ => some ⟨"https", "g.me"⟩) 200)).val = Outcome.ret ("https://g.me/x.png", none) ∧
    (GetRandomGopher (sampleEnv (sampleCatalog [["a"]]) (pageOneImg "https://g.me/x.png") 0
      (fun _ => some ⟨"https", "g.me"⟩) 200) ResponseWriter.fresh
      (sampleRequest "GET" [] "")).w.Code = 303 ∧
    Header.Get (GetRandomGopher (sampleEnv (sampleCatalog [["a"]]) (pageOneImg "https://g.me/x.png")
      0 (fun _ => some ⟨"https", "g.me"⟩) 200) ResponseWriter.fresh
      (sampleRequest "GET" [] "")).w.Header "Location" = "https://g.me/x.png" :=
  ⟨rfl, by decide, by decide,
    (C5_get_redirect (sampleEnv (sampleCatalog [["a"]]) (pageOneImg "https://g.me/x.png") 0
      (fun _ => some ⟨"https", "g.me"⟩) 200) (sampleRequest "GET" [] "") "https://g.me/x.png"
      rfl (by decide) (by decide)).1,
    (C5_get_redirect (sampleEnv (sampleCatalog [["a"]]) (pageOneImg "https://g.me/x.png") 0
      (fun _ => some ⟨"https", "g.me"⟩) 200) (sampleRequest "GET" [] "") "https://g.me/x.png"
      rfl (by decide) (by decide)).2.2 (by decide) (by decide)⟩

/-- C6: a POST is answered with status 200 whatever the environment does;
when the body was read, the text is the acknowledgement and one notification
task is started with the raw body; when reading failed, the text is the
fallback message and no task is started.  The handler makes no outbound
request itself. -/
theorem C6_post_always_ok (env : Env) (r : Request) (hpost : r.Method = "POST") :
    (GetRandomGopher env ResponseWriter.fresh r).w.Code = 200 ∧
    (GetRandomGopher env ResponseWriter.fresh r).calls = [] ∧
    (GetRandomGopher env ResponseWriter.fresh r).panicked = none ∧
    (r.BodyErr = none →
      (GetRandomGopher env ResponseWriter.fresh r).w.Body = [Chunk.text "_New Gopher incoming_"] ∧
      (GetRandomGopher env ResponseWriter.fresh r).spawned = [r.Body]) ∧
    (∀ err, r.BodyErr = some err →
      (GetRandomGopher env ResponseWriter.fresh r).w.Body
        = [Chunk.text "_Something went wrong :(_"] ∧
      (GetRandomGopher env ResponseWriter.fresh r).spawned = []) := by
  have hne : r.Method ≠ "GET" := by
    rw [hpost]
    decide
  cases hb : r.BodyErr with
  | none =>
    simp [GetRandomGopher, hpost, hb, ResponseWriter.fresh, ResponseWriter.WriteHeader,
      ResponseWriter.Write, StatusOK]
  | some e =>
    simp [GetRandomGopher, hpost, hb, ResponseWriter.fresh, ResponseWriter.WriteHeader,
      ResponseWriter.Write, StatusOK]

/-- C6 (witness): a POST whose body reads as `response_url=x&`. -/
theorem C6_post_always_ok_witness :
    (sampleRequest "POST" [] "response_url=x&").Method = "POST" ∧
    (GetRandomGopher (sampleEnv (sampleCatalog []) [] 0 (fun _ => none) 500)
      ResponseWriter.fresh (sampleRequest "POST" [] "response_url=x&")).w.Code = 200 ∧
    (GetRandomGopher (sampleEnv (sampleCatalog []) [] 0 (fun _ => none) 500)
      ResponseWriter.fresh (sampleRequest "POST" [] "response_url=x&")).spawned
        = ["response_url=x&"] :=
  ⟨rfl,
    (C6_post_always_ok (sampleEnv (sampleCatalog []) [] 0 (fun _ => none) 500)
      (sampleRequest "POST" [] "response_url=x&") rfl).1,
    ((C6_post_always_ok (sampleEnv (sampleCatalog []) [] 0 (fun _ => none) 500)
      (sampleRequest "POST" [] "response_url=x&") rfl).2.2.2.1 rfl).2⟩

/-- When the pattern matches nowhere in the body, `asyncResponse` returns
without any outbound request. -/
theorem asyncResponse_no_match (env : Env) (body : String)
    (h : FindStringSubmatch body = []) :
    (asyncResponse env body).calls = [] ∧ (asyncResponse env body).val = Outcome.ret () := by
  simp [asyncResponse, h]

/-- C7: on the body of the claim's example the notifier posts to the decoded
callback URL, but on a body in which another parameter follows the callback
URL the greedy group runs to the last `&` and the POST goes to
`http://example.com/cb&trigger_id=1`, not to `http://example.com/cb`. -/
theorem C7_greedy_capture :
    (asyncResponse (sampleEnv (sampleCatalog [["a"]]) (pageOneImg "X") 0 (fun _ => none) 200)
      "response_url=http%3A%2F%2Fexample.com%2Fcb&").calls
      = [Call.Get "https://gopherize.me/api/artwork",
         Call.Get "https://gopherize.me/save?images=a",
         Call.Post "http://example.com/cb" "application/json"
           (Marshal ⟨"in_channel", [⟨"Gopher !!", "X", "gopher", "X"⟩], ""⟩)] ∧
    FindStringSubmatch "response_url=http%3A%2F%2Fexample.com%2Fcb&trigger_id=1&x=2"
      = ["response_url=http%3A%2F%2Fexample.com%2Fcb&trigger_id=1&", "response_url=",
         "http%3A%2F%2Fexample.com%2Fcb&trigger_id=1"] ∧
    (asyncResponse (sampleEnv (sampleCatalog [["a"]]) (pageOneImg "X") 0 (fun _ => none) 200)
      "response_url=http%3A%2F%2Fexample.com%2Fcb&trigger_id=1&x=2").calls
      = [Call.Get "https://gopherize.me/api/artwork",
         Call.Get "https://gopherize.me/save?images=a",
         Call.Post "http://example.com/cb&trigger_id=1" "application/json"
           (Marshal ⟨"in_channel", [⟨"Gopher !!", "X", "gopher", "X"⟩], ""⟩)] := by
  refine ⟨by rfl, by decide, by rfl⟩

/-- C8: the payload posted by `sendDelayedResponse` is the JSON object with
the fields `response_type` and `attachments` only, the latter holding one
attachment whose `image_url` and `title_link` are the image URL. -/
theorem C8_payload (env : Env) (responseURL u : String) :
    (sendDelayedResponse env responseURL u).calls
      = [Call.Post responseURL "application/json"
          (Json.obj [("response_type", Json.str "in_channel"),
            ("attachments", Json.arr [Json.obj [("fallback", Json.str "Gopher !!"),
              ("image_url", Json.str u), ("title", Json.str "gopher"),
              ("title_link", Json.str u)]])])] := by
  unfold sendDelayedResponse
  have hm : Marshal ⟨responseType, ([] : List Attachment) ++ [⟨"Gopher !!", u, "gopher", u⟩], ""⟩
      = Json.obj [("response_type", Json.str "in_channel"),
          ("attachments", Json.arr [Json.obj [("fallback", Json.str "Gopher !!"),
            ("image_url", Json.str u), ("title", Json.str "gopher"),
            ("title_link", Json.str u)]])] := by
    simp [Marshal, Attachment.toJson, responseType]
  simp only [hm]
  split
  · rfl
  · split <;> rfl

/-- C9 (counterexample): the callback endpoint answers 204, a success status,
and `sendDelayedResponse` returns an error. -/
theorem C9_counterexample :
    (sendDelayedResponse (sampleEnv (sampleCatalog []) [] 0 (fun _ => none) 204)
      "http://example.com/cb" "X").val
      = some "response to slack with the image return a non 200" ∧
    (200 ≤ 204 ∧ 204 < 300) := by
  refine ⟨by decide, by decide⟩

/-- C9 (amended): `sendDelayedResponse` returns no error exactly when the POST
transport succeeds and the callback endpoint answers with status 200; a
transport failure is returned as it is, and every status other than 200 gives
an error. -/
theorem C9_error_iff_not_200 (env : Env) (responseURL u : String) :
    ((sendDelayedResponse env responseURL u).val = none ↔
      ∃ resp, env.Post responseURL "application/json"
          (Marshal ⟨"in_channel", [⟨"Gopher !!", u, "gopher", u⟩], ""⟩) = Except.ok resp ∧
        resp.StatusCode = 200) ∧
    (∀ err, env.Post responseURL "application/json"
        (Marshal ⟨"in_channel", [⟨"Gopher !!", u, "gopher", u⟩], ""⟩) = Except.error err →
      (sendDelayedResponse env responseURL u).val = some err) := by
  unfold sendDelayedResponse
  simp only [responseType, List.nil_append, StatusOK]
  cases hp : env.Post responseURL "application/json"
      (Marshal ⟨"in_channel", [⟨"Gopher !!", u, "gopher", u⟩], ""⟩) with
  | error e => simp
  | ok resp =>
    by_cases hs : resp.StatusCode = 200
    · simp [hs]
    · simp [hs]

/-- C9 (witness): the callback endpoint answers 200. -/
theorem C9_error_iff_not_200_witness :
    (sendDelayedResponse (sampleEnv (sampleCatalog []) [] 0 (fun _ => none) 200)
      "http://example.com/cb" "X").val = none :=
  (C9_error_iff_not_200 (sampleEnv (sampleCatalog []) [] 0 (fun _ => none) 200)
    "http://example.com/cb" "X").1.mpr ⟨⟨200, "", none⟩, rfl, rfl⟩

/-- C10: a request whose method is neither GET nor POST is answered with
status 501 and an empty body; the handler makes no outbound request (no
catalog fetch, no image resolution) and starts no notification task. -/
theorem C10_other_method (env : Env) (r : Request) (hget : r.Method ≠ "GET")
    (hpost : r.Method ≠ "POST") :
    (GetRandomGopher env ResponseWriter.fresh r).w.Code = 501 ∧
    (GetRandomGopher env ResponseWriter.fresh r).w.Body = [] ∧
    (GetRandomGopher env ResponseWriter.fresh r).calls = [] ∧
    (GetRandomGopher env ResponseWriter.fresh r).spawned = [] ∧
    (GetRandomGopher env ResponseWriter.fresh r).panicked = none := by
  simp [GetRandomGopher, hget, hpost, ResponseWriter.fresh, ResponseWriter.WriteHeader,
    StatusNotImplemented]

/-- C10 (witness): a DELETE request. -/
theorem C10_other_method_witness :
    (sampleRequest "DELETE" [] "").Method ≠ "GET" ∧
    (sampleRequest "DELETE" [] "").Method ≠ "POST" ∧
    (GetRandomGopher (sampleEnv (sampleCatalog [["a"]]) (pageOneImg "X") 0 (fun _ => none) 200)
      ResponseWriter.fresh (sampleRequest "DELETE" [] "")).w.Code = 501 :=
  ⟨by decide, by decide,
    (C10_other_method (sampleEnv (sampleCatalog [["a"]]) (pageOneImg "X") 0 (fun _ => none) 200)
      (sampleRequest "DELETE" [] "") (by decide) (by decide)).1⟩

end RandomGopher
